import Mathlib

/-!
Shallow embedding of the deno_scripts configuration-resolution-and-launch
engine (`scripts.ts`, the `Scripts` constructor) together with the small
helper functions it calls.  JavaScript objects with string keys are modelled
as association lists in which a later binding shadows an earlier one (so the
object spread `\x7b...a, ...b\x7d` is list append), optional / possibly
`undefined` fields are `Option`, and JavaScript truthiness is made explicit
per type.  The ambient effects of the engine (log lines, debug output,
starting the file watcher, spawning a child process, `Deno.exit`) are
reified into an effect trace plus a terminal outcome, with the filesystem
(`existsSync(".env")`, `exists(file)`, the env-file loader) and the child
process status supplied as oracles.
-/

set_option autoImplicit false

namespace DenoScripts

/-- A JavaScript string-keyed record, as an association list in which later
entries shadow earlier ones; `loadEnvFromObject` values are modelled as
already stringified. -/
abbrev Rec := List (String × String)

/-- Property lookup on a JavaScript-style record: the last binding of a key
wins, `none` when the key is absent. -/
def jsGet {α : Type} : List (String × α) → String → Option α
  | [], _ => none
  | p :: rest, k =>
    match jsGet rest k with
    | some v => some v
    | none => if p.1 = k then some p.2 else none

/-- A JavaScript value that is either a boolean or a string
(the `boolean | string` fields of the config). -/
inductive BoolOrStr where
  | bool : Bool → BoolOrStr
  | str : String → BoolOrStr
deriving DecidableEq

/-- JavaScript truthiness of a `boolean | string` value: `false` and the
empty string are falsy. -/
def BoolOrStr.truthy : BoolOrStr → Bool
  | .bool b => b
  | .str s => s != ""

/-- A value that is either a single string or an ordered sequence of strings
(the `string | string[]` fields of the config). -/
inductive StrOrList where
  | str : String → StrOrList
  | list : List String → StrOrList
deriving DecidableEq

/-- Accumulator-style splitting of a character list at spaces, keeping only
the non-empty chunks; `acc` holds the characters of the current token in
reverse. -/
def splitWsAux : List Char → List Char → List String
  | [], acc => if acc.isEmpty then [] else [String.mk acc.reverse]
  | c :: rest, acc =>
    if c = ' ' then
      (if acc.isEmpty then [] else [String.mk acc.reverse]) ++ splitWsAux rest []
    else splitWsAux rest (c :: acc)

/-- Modelled from the spec: `lib/utils.ts` `toArgsStringList` (not under
`src/`) splits a scalar command string into whitespace-delimited tokens. -/
def splitWs (s : String) : List String :=
  splitWsAux s.data []

/-- Tokens contributed by a `string | string[]` value: a scalar string is
split into whitespace-delimited tokens, a sequence is used as-is. -/
def StrOrList.tokens : StrOrList → List String
  | .str s => splitWs s
  | .list l => l

/-- Modelled from the spec: `lib/utils.ts` `toArgsStringList` (not under
`src/`): an absent value contributes no tokens. -/
def toArgsStringList : Option StrOrList → List String
  | some v => v.tokens
  | none => []

/-- Structure `WatchOptions` of `scripts.ts`: every field optional. -/
structure WatchOptions where
  paths : Option (List String) := none
  matchPats : Option (List String) := none
  skip : Option (List String) := none
  extensions : Option (List String) := none
  interval : Option Nat := none
  recursive : Option Bool := none
deriving DecidableEq

/-- The `watch` field: `boolean | WatchOptions`. -/
inductive WatchVal where
  | bool : Bool → WatchVal
  | opts : WatchOptions → WatchVal
deriving DecidableEq

/-- JavaScript truthiness of a `boolean | WatchOptions` value: any object is
truthy. -/
def WatchVal.truthy : WatchVal → Bool
  | .bool b => b
  | .opts _ => true

/-- Structure `Permissions` of `scripts.ts`. -/
structure Permissions where
  allowAll : Option Bool := none
  allowEnv : Option Bool := none
  allowHRTime : Option Bool := none
  allowNet : Option BoolOrStr := none
  allowPlugin : Option Bool := none
  allowRead : Option BoolOrStr := none
  allowRun : Option Bool := none
  allowWrite : Option BoolOrStr := none
deriving DecidableEq

/-- A script definition (`ScriptFile | ScriptRun` of `scripts.ts`): the two
variants are distinguished by which of the optional `file` / `run` fields is
present, exactly as in the source's duck typing. -/
structure ScriptDef where
  file : Option String := none
  run : Option StrOrList := none
  envFile : Option BoolOrStr := none
  env : Option Rec := none
  args : Option StrOrList := none
  watch : Option WatchVal := none
  permissions : Option Permissions := none
  tsconfig : Option String := none
  denoArgs : Option StrOrList := none
deriving DecidableEq

/-- Structure `GlobalConfig` of `scripts.ts`. -/
structure GlobalConfig where
  envFile : Option BoolOrStr := none
  env : Option Rec := none
  args : Option StrOrList := none
  watch : Option WatchVal := none
  permissions : Option Permissions := none
  tsconfig : Option String := none
  denoArgs : Option StrOrList := none
  debug : Option Bool := none
  importMap : Option String := none
  unstable : Option Bool := none
deriving DecidableEq

/-- Function `defaultCommonArgs` of `scripts.ts`: if `globalConfig.envFile` is
`undefined` and a `.env` file exists, it sets `globalConfig.envFile = true`.
The source mutates `globalConfig` in place (and leaves its `_local` argument
untouched); the mutation is embedded as a state transformer returning the
updated pair. -/
def defaultCommonArgs (_local : ScriptDef) (globalConfig : GlobalConfig)
    (dotEnvExists : Bool) : ScriptDef × GlobalConfig :=
  if globalConfig.envFile = none then
    if dotEnvExists then
      (_local, { globalConfig with envFile := some (.bool true) })
    else (_local, globalConfig)
  else (_local, globalConfig)

/-- The resolved `envFile` value: `script.envFile ?? globalConfig.envFile`. -/
def resolvedEnvFile (script : ScriptDef) (globalConfig : GlobalConfig) :
    Option BoolOrStr :=
  match script.envFile with
  | some v => some v
  | none => globalConfig.envFile

/-- Truthiness of the resolved `envFile` (`undefined` is falsy). -/
def envFileTruthy : Option BoolOrStr → Bool
  | some v => v.truthy
  | none => false

/-- The file name handed to `loadEnvFromFile`:
`typeof envFile === "string" ? envFile : ".env"`. -/
def envFileName : Option BoolOrStr → String
  | some (.str s) => s
  | _ => ".env"

/-- Modelled from the spec: `lib/env.ts` `loadEnvFromObject` (not under
`src/`) stringifies the scalar values of an `env` object; values are
modelled as strings already, so it is the identity. -/
def loadEnvFromObject (r : Rec) : Rec := r

/-- The environment-resolution block of `Scripts` (lines 146-168 of
`scripts.ts`): load the env file when the resolved `envFile` is truthy, then
overlay the global `env`, then the script `env`, later entries winning. -/
def buildEnv (script : ScriptDef) (globalConfig : GlobalConfig)
    (loadEnvFromFile : String → Rec) : Option Rec :=
  let envFile := resolvedEnvFile script globalConfig
  let env0 : Option Rec :=
    if envFileTruthy envFile then some (loadEnvFromFile (envFileName envFile))
    else none
  let env1 : Option Rec :=
    match globalConfig.env with
    | some genv => some ((env0.getD []) ++ loadEnvFromObject genv)
    | none => env0
  match script.env with
  | some senv => some ((env1.getD []) ++ loadEnvFromObject senv)
  | none => env1

/-- The expression `Boolean(script.watch ?? globalConfig.watch)` of `scripts.ts`. -/
def watchModeEnabled (script : ScriptDef) (globalConfig : GlobalConfig) : Bool :=
  match script.watch with
  | some w => w.truthy
  | none =>
    match globalConfig.watch with
    | some w => w.truthy
    | none => false

/-- The object contribution of a `watch` value to the options spread:
`typeof w === "object" ? w : \x7b\x7d`. -/
def watchObj : Option WatchVal → WatchOptions
  | some (.opts o) => o
  | _ => {}

/-- Field-wise spread of two `WatchOptions`: keys of the second object win. -/
def mergeWatchOptions (a b : WatchOptions) : WatchOptions where
  paths := match b.paths with | some v => some v | none => a.paths
  matchPats := match b.matchPats with | some v => some v | none => a.matchPats
  skip := match b.skip with | some v => some v | none => a.skip
  extensions := match b.extensions with | some v => some v | none => a.extensions
  interval := match b.interval with | some v => some v | none => a.interval
  recursive := match b.recursive with | some v => some v | none => a.recursive

/-- The `watchOptions` object of `scripts.ts`:
`\x7b...(global object part), ...(script object part)\x7d`. -/
def resolvedWatchOptions (script : ScriptDef) (globalConfig : GlobalConfig) :
    WatchOptions :=
  mergeWatchOptions (watchObj globalConfig.watch) (watchObj script.watch)

/-- Modelled from the spec: `lib/permissions.ts` (not under `src/`): the
tokens emitted for one `Permissions` object, one flag per enabled
capability, string-valued capabilities carrying their value. -/
def permissionTokens (p : Permissions) : List String :=
  (match p.allowAll with | some true => ["--allow-all"] | _ => []) ++
  (match p.allowEnv with | some true => ["--allow-env"] | _ => []) ++
  (match p.allowHRTime with | some true => ["--allow-hrtime"] | _ => []) ++
  (match p.allowNet with
    | some (.bool true) => ["--allow-net"]
    | some (.str s) => ["--allow-net=" ++ s]
    | _ => []) ++
  (match p.allowPlugin with | some true => ["--allow-plugin"] | _ => []) ++
  (match p.allowRead with
    | some (.bool true) => ["--allow-read"]
    | some (.str s) => ["--allow-read=" ++ s]
    | _ => []) ++
  (match p.allowRun with | some true => ["--allow-run"] | _ => []) ++
  (match p.allowWrite with
    | some (.bool true) => ["--allow-write"]
    | some (.str s) => ["--allow-write=" ++ s]
    | _ => [])

/-- Modelled from the spec: `lib/permissions.ts` `argifyPermissions` (not
under `src/`): a pure function of the (script, global) pair, the script
value winning when present, emitting zero tokens when both are unset. -/
def argifyPermissions (l g : Option Permissions) : List String :=
  match l with
  | some p => permissionTokens p
  | none =>
    match g with
    | some p => permissionTokens p
    | none => []

/-- Modelled from the spec: `lib/args.ts` `argifyTsconfig` (not under
`src/`): emits the tsconfig flag for the resolved (script over global)
tsconfig path, zero tokens when both are unset. -/
def argifyTsconfig (l g : Option String) : List String :=
  match l with
  | some t => ["-c", t]
  | none =>
    match g with
    | some t => ["-c", t]
    | none => []

/-- Modelled from the spec: `lib/args.ts` `argifyArgs` (not under `src/`):
resolves the script-level value over the global-level one (script wins when
present and non-undefined), then tokenizes it; zero tokens when both are
unset. -/
def argifyArgs (l g : Option StrOrList) : List String :=
  match l with
  | some v => toArgsStringList (some v)
  | none => toArgsStringList g

/-- Modelled from the spec: `lib/args.ts` `argifyImportMap` (not under
`src/`): emits the import-map flag for the global-only `importMap` path,
zero tokens when unset. -/
def argifyImportMap : Option String → List String
  | some m => ["--importmap", m]
  | none => []

/-- Modelled from the spec: `lib/args.ts` `argifyUnstable` (not under
`src/`): emits the flag enabling unstable features when the global-only
option is set, zero tokens otherwise. -/
def argifyUnstable : Option Bool → List String
  | some true => ["--unstable"]
  | _ => []

/-- One filesystem change event reported by the watcher
(`change.path`, `change.event`). -/
structure Change where
  path : String
  event : String
deriving DecidableEq

/-- One reified ambient effect of the engine. `logLine` / `debugLine` are
the `log` / `debug` calls of `log.ts` with a string, `debugObj` is the
`debug(\x7bcmd, env\x7d)` call made when `globalConfig.debug` is set,
`watcherStart` is the construction of the `Watcher` over its path list, and
`spawn` is `Deno.run` with the composed command and resolved environment. -/
inductive Effect where
  | logLine : String → Effect
  | debugLine : String → Effect
  | debugObj : List String → Option Rec → Effect
  | watcherStart : List String → Effect
  | spawn : List String → Option Rec → Effect
deriving DecidableEq

/-- How the engine's control flow ends. `failed` is `fail` of `log.ts` (not
under `src/`; modelled from the spec: prints the message and terminates the
orchestrator with a non-zero exit code), `exited` is `Deno.exit` with the
given code, and `watchEnded` marks exhaustion of the (finite, oracle-fed)
list of watcher change batches standing in for the endless watch loop. -/
inductive Terminal where
  | failed : String → Terminal
  | exited : Int → Terminal
  | watchEnded : Terminal
deriving DecidableEq

/-- The filesystem oracle: whether `.env` exists in the working directory,
whether a given path exists, and the parsed contents of an env file
(`loadEnvFromFile` of `lib/env.ts` is delegated to this oracle). -/
structure Fs where
  dotEnvExists : Bool
  fileExists : String → Bool
  loadEnvFromFile : String → Rec

/-- The call `Deno.exit((await process.status()).code)`: the child status code may be
absent (signal termination); `Deno.exit` treats an absent code as `0`. -/
def denoExit (status : Option Int) : Terminal :=
  .exited (status.getD 0)

/-- The truthiness guard `if (script.file)`: present and non-empty. -/
def fileTarget (s : ScriptDef) : Option String :=
  match s.file with
  | some f => if f = "" then none else some f
  | none => none

/-- The truthiness guard `else if (script.run)`: a scalar command must be a
non-empty string, an array is always truthy. -/
def runTarget (s : ScriptDef) : Option StrOrList :=
  match s.run with
  | some (.str r) => if r = "" then none else some (.str r)
  | some (.list l) => some (.list l)
  | none => none

/-- The `log("Watch mode enabled.")` effect, emitted exactly when watch mode
is enabled. -/
def watchLogEffects (s : ScriptDef) (g : GlobalConfig) : List Effect :=
  if watchModeEnabled s g then [.logLine "Watch mode enabled."] else []

/-- The `debug(\x7bcmd: cmd.join(" "), env\x7d)` effect, emitted exactly
when `globalConfig.debug` is truthy. -/
def debugEffects (g : GlobalConfig) (cmd : List String) (env : Option Rec) :
    List Effect :=
  match g.debug with
  | some true => [.debugObj cmd env]
  | _ => []

/-- The command vector of the `script.run` branch:
`[...toArgsStringList(script.run), ...argifyArgs(script.args, globalConfig.args), ...restArg]`. -/
def runCmdOf (s : ScriptDef) (g : GlobalConfig) (r : StrOrList)
    (rest : List String) : List String :=
  r.tokens ++ argifyArgs s.args g.args ++ rest

/-- The command vector of the `script.file` branch: `deno run`, permission
flags, tsconfig flag, deno args, import-map flag, unstable flag, the file,
script args, then the rest of the invocation's arguments. -/
def fileCmdOf (s : ScriptDef) (g : GlobalConfig) (file : String)
    (rest : List String) : List String :=
  ["deno", "run"] ++
  argifyPermissions s.permissions g.permissions ++
  argifyTsconfig s.tsconfig g.tsconfig ++
  argifyArgs s.denoArgs g.denoArgs ++
  argifyImportMap g.importMap ++
  argifyUnstable g.unstable ++
  [file] ++
  argifyArgs s.args g.args ++
  rest

/-- The log line reporting one change batch:
`Detected N change(s). Rerunning...`. -/
def batchLogLine (n : Nat) : String :=
  "Detected " ++ toString n ++ " change" ++ (if 1 < n then "s" else "") ++
    ". Rerunning..."

/-- The debug line for one change: `File "<path>" was <event>`. -/
def changeDebugLine (c : Change) : String :=
  "File \"" ++ c.path ++ "\" was " ++ c.event

/-- The body of the `for await (const changes of watcher)` loop, applied to
every batch the watcher yields: one count log line, then one debug line per
change — and nothing else. -/
def watchLoopEffects (batches : List (List Change)) : List Effect :=
  (batches.map (fun cs =>
    Effect.logLine (batchLogLine cs.length) ::
      cs.map (fun c => Effect.debugLine (changeDebugLine c)))).flatten

/-- The part of `Scripts` that runs once the script has been looked up and
`defaultCommonArgs` applied: environment resolution, the watch-mode log, and
the `script.file` / `script.run` branches (lines 146-257 of `scripts.ts`).
Already-resolved global config comes in as `g`; the oracle `batches` feeds
the watcher loop and `st` is the child process status code. -/
def runScript (s : ScriptDef) (g : GlobalConfig) (rest : List String)
    (fs : Fs) (batches : List (List Change)) (st : Option Int) :
    List Effect × Terminal :=
  match fileTarget s with
  | some file =>
    if fs.fileExists file then
      if watchModeEnabled s g then
        (watchLogEffects s g ++
          [.watcherStart (file :: ((resolvedWatchOptions s g).paths.getD []))] ++
          watchLoopEffects batches,
         .watchEnded)
      else
        (watchLogEffects s g ++
          debugEffects g (fileCmdOf s g file rest) (buildEnv s g fs.loadEnvFromFile) ++
          [.spawn (fileCmdOf s g file rest) (buildEnv s g fs.loadEnvFromFile)],
         denoExit st)
    else
      (watchLogEffects s g, .failed ("File " ++ file ++ " not found!"))
  | none =>
    match runTarget s with
    | some r =>
      (watchLogEffects s g ++
        debugEffects g (runCmdOf s g r rest) (buildEnv s g fs.loadEnvFromFile) ++
        [.spawn (runCmdOf s g r rest) (buildEnv s g fs.loadEnvFromFile)],
       denoExit st)
    | none => (watchLogEffects s g, .failed "Script not found!")

/-- The `Scripts` constructor of `scripts.ts`: destructure the process
arguments into script name and rest, fail on an empty name, look the script
up in the config object (failing with a message quoting the name), apply
`defaultCommonArgs`, and hand over to the resolved-script runner. -/
def Scripts (config : List (String × ScriptDef)) (globalConfig : GlobalConfig)
    (argv : List String) (fs : Fs) (batches : List (List Change))
    (st : Option Int) : List Effect × Terminal :=
  match argv with
  | [] => ([], .failed "Specify a script to be executed!")
  | scriptArg :: restArg =>
    if scriptArg = "" then ([], .failed "Specify a script to be executed!")
    else
      match jsGet config scriptArg with
      | none => ([], .failed ("script \"" ++ scriptArg ++ "\" not found!"))
      | some script =>
        runScript script
          (defaultCommonArgs script globalConfig fs.dotEnvExists).2
          restArg fs batches st

/-- The commands of the spawn effects of a trace, in order. -/
def spawnedCmds (effects : List Effect) : List (List String) :=
  effects.filterMap (fun e =>
    match e with
    | .spawn cmd _ => some cmd
    | _ => none)

/-- Whether an effect is the start of the file watcher. -/
def Effect.isWatcherStart : Effect → Bool
  | .watcherStart _ => true
  | _ => false

/-- The part of the resolved environment that is sourced from the env file:
the loaded file contents when the resolved `envFile` is truthy, nothing
otherwise. -/
def fileEnvPart (s : ScriptDef) (g : GlobalConfig) (L : String → Rec) : Rec :=
  if envFileTruthy (resolvedEnvFile s g) then
    L (envFileName (resolvedEnvFile s g))
  else []

/-! Invariance of `defaultCommonArgs`: it returns its `_local` argument
unchanged and touches no global field other than `envFile`. -/

theorem defaultCommonArgs_fst (s : ScriptDef) (g : GlobalConfig) (d : Bool) :
    (defaultCommonArgs s g d).1 = s := by
  cases h : g.envFile <;> cases d <;> simp [defaultCommonArgs, h]

@[simp] theorem defaultCommonArgs_args (s : ScriptDef) (g : GlobalConfig)
    (d : Bool) : ((defaultCommonArgs s g d).2).args = g.args := by
  cases h : g.envFile <;> cases d <;> simp [defaultCommonArgs, h]

@[simp] theorem defaultCommonArgs_env (s : ScriptDef) (g : GlobalConfig)
    (d : Bool) : ((defaultCommonArgs s g d).2).env = g.env := by
  cases h : g.envFile <;> cases d <;> simp [defaultCommonArgs, h]

@[simp] theorem defaultCommonArgs_watch (s : ScriptDef) (g : GlobalConfig)
    (d : Bool) : ((defaultCommonArgs s g d).2).watch = g.watch := by
  cases h : g.envFile <;> cases d <;> simp [defaultCommonArgs, h]

@[simp] theorem defaultCommonArgs_permissions (s : ScriptDef) (g : GlobalConfig)
    (d : Bool) : ((defaultCommonArgs s g d).2).permissions = g.permissions := by
  cases h : g.envFile <;> cases d <;> simp [defaultCommonArgs, h]

@[simp] theorem defaultCommonArgs_tsconfig (s : ScriptDef) (g : GlobalConfig)
    (d : Bool) : ((defaultCommonArgs s g d).2).tsconfig = g.tsconfig := by
  cases h : g.envFile <;> cases d <;> simp [defaultCommonArgs, h]

@[simp] theorem defaultCommonArgs_denoArgs (s : ScriptDef) (g : GlobalConfig)
    (d : Bool) : ((defaultCommonArgs s g d).2).denoArgs = g.denoArgs := by
  cases h : g.envFile <;> cases d <;> simp [defaultCommonArgs, h]

@[simp] theorem defaultCommonArgs_debug (s : ScriptDef) (g : GlobalConfig)
    (d : Bool) : ((defaultCommonArgs s g d).2).debug = g.debug := by
  cases h : g.envFile <;> cases d <;> simp [defaultCommonArgs, h]

@[simp] theorem defaultCommonArgs_importMap (s : ScriptDef) (g : GlobalConfig)
    (d : Bool) : ((defaultCommonArgs s g d).2).importMap = g.importMap := by
  cases h : g.envFile <;> cases d <;> simp [defaultCommonArgs, h]

@[simp] theorem defaultCommonArgs_unstable (s : ScriptDef) (g : GlobalConfig)
    (d : Bool) : ((defaultCommonArgs s g d).2).unstable = g.unstable := by
  cases h : g.envFile <;> cases d <;> simp [defaultCommonArgs, h]

@[simp] theorem watchModeEnabled_defaultCommonArgs (s : ScriptDef)
    (g : GlobalConfig) (d : Bool) :
    watchModeEnabled s (defaultCommonArgs s g d).2 = watchModeEnabled s g := by
  unfold watchModeEnabled
  rw [defaultCommonArgs_watch]

@[simp] theorem resolvedWatchOptions_defaultCommonArgs (s : ScriptDef)
    (g : GlobalConfig) (d : Bool) :
    resolvedWatchOptions s (defaultCommonArgs s g d).2 =
      resolvedWatchOptions s g := by
  unfold resolvedWatchOptions
  rw [defaultCommonArgs_watch]

/-! `spawnedCmds` over the effect combinators. -/

@[simp] theorem spawnedCmds_nil : spawnedCmds [] = [] := rfl

@[simp] theorem spawnedCmds_append (a b : List Effect) :
    spawnedCmds (a ++ b) = spawnedCmds a ++ spawnedCmds b := by
  simp [spawnedCmds, List.filterMap_append]

@[simp] theorem spawnedCmds_watchLogEffects (s : ScriptDef) (g : GlobalConfig) :
    spawnedCmds (watchLogEffects s g) = [] := by
  unfold watchLogEffects
  split <;> rfl

@[simp] theorem spawnedCmds_debugEffects (g : GlobalConfig) (cmd : List String)
    (env : Option Rec) : spawnedCmds (debugEffects g cmd env) = [] := by
  unfold debugEffects
  split <;> rfl

@[simp] theorem spawnedCmds_spawn (cmd : List String) (env : Option Rec) :
    spawnedCmds [.spawn cmd env] = [cmd] := rfl

theorem spawnedCmds_changeDebugs (cs : List Change) :
    spawnedCmds (cs.map (fun c => Effect.debugLine (changeDebugLine c))) = [] := by
  induction cs with
  | nil => rfl
  | cons c cs ih => simp [spawnedCmds, List.filterMap_cons, ih]

@[simp] theorem spawnedCmds_watchLoopEffects (batches : List (List Change)) :
    spawnedCmds (watchLoopEffects batches) = [] := by
  induction batches with
  | nil => rfl
  | cons b bs ih =>
    simp [watchLoopEffects] at ih ⊢
    simp [spawnedCmds, List.filterMap_cons, List.filterMap_append,
      spawnedCmds_changeDebugs, ih]

/-! Unfolding `Scripts` and the branches of `runScript`. -/

theorem Scripts_eq_runScript (config : List (String × ScriptDef))
    (g : GlobalConfig) (name : String) (rest : List String) (fs : Fs)
    (batches : List (List Change)) (st : Option Int) (s : ScriptDef)
    (hname : ¬ name = "") (hlook : jsGet config name = some s) :
    Scripts config g (name :: rest) fs batches st =
      runScript s (defaultCommonArgs s g fs.dotEnvExists).2 rest fs batches st := by
  simp [Scripts, hname, hlook]

theorem runScript_run (s : ScriptDef) (g : GlobalConfig) (rest : List String)
    (fs : Fs) (batches : List (List Change)) (st : Option Int) (r : StrOrList)
    (hf : fileTarget s = none) (hr : runTarget s = some r) :
    runScript s g rest fs batches st =
      (watchLogEffects s g ++
        debugEffects g (runCmdOf s g r rest) (buildEnv s g fs.loadEnvFromFile) ++
        [.spawn (runCmdOf s g r rest) (buildEnv s g fs.loadEnvFromFile)],
       denoExit st) := by
  simp [runScript, hf, hr]

theorem runScript_file_oneshot (s : ScriptDef) (g : GlobalConfig)
    (rest : List String) (fs : Fs) (batches : List (List Change))
    (st : Option Int) (f : String) (hf : fileTarget s = some f)
    (hex : fs.fileExists f = true) (hw : watchModeEnabled s g = false) :
    runScript s g rest fs batches st =
      (watchLogEffects s g ++
        debugEffects g (fileCmdOf s g f rest) (buildEnv s g fs.loadEnvFromFile) ++
        [.spawn (fileCmdOf s g f rest) (buildEnv s g fs.loadEnvFromFile)],
       denoExit st) := by
  simp [runScript, hf, hex, hw]

theorem runScript_file_missing (s : ScriptDef) (g : GlobalConfig)
    (rest : List String) (fs : Fs) (batches : List (List Change))
    (st : Option Int) (f : String) (hf : fileTarget s = some f)
    (hex : fs.fileExists f = false) :
    runScript s g rest fs batches st =
      (watchLogEffects s g, .failed ("File " ++ f ++ " not found!")) := by
  simp [runScript, hf, hex]

/-- Lookup over an appended record: a binding in the later (second) part
shadows any binding of the same key in the earlier part. -/
theorem jsGet_append {α : Type} (a b : List (String × α)) (k : String) :
    jsGet (a ++ b) k =
      match jsGet b k with
      | some v => some v
      | none => jsGet a k := by
  induction a with
  | nil =>
    simp [jsGet]
    cases jsGet b k <;> rfl
  | cons p a ih =>
    show (match jsGet (a ++ b) k with
          | some v => some v
          | none => if p.1 = k then some p.2 else none) = _
    rw [ih]
    cases jsGet b k <;> simp [jsGet]

/-- A sample filesystem oracle for concrete instantiations: no `.env` file,
every other path exists, env files parse to nothing. -/
def sampleFs : Fs where
  dotEnvExists := false
  fileExists := fun _ => true
  loadEnvFromFile := fun _ => []

/-- A file-backed script with watch enabled, used as the concrete watch-mode
scenario. -/
def watchedFileScript : ScriptDef where
  file := some "./app.ts"
  watch := some (.bool true)

/-- A single change batch containing one modification of the watched file. -/
def oneChangeBatch : List (List Change) :=
  [[{ path := "./app.ts", event := "modify" }]]

/-- C1: with `watch: true` on a file script and a single one-change batch,
the watch loop logs the batch's change count (and the per-change debug
line), but it spawns no child process at all: contrary to the claim (and to
the code's own "Rerunning..." log text), no rerun cycle re-derives the
invocation or relaunches the child — the loop body only logs. -/
theorem c1_watch_batch_logged_but_never_relaunched :
    (Scripts [("app", watchedFileScript)] {} ["app"] sampleFs oneChangeBatch
        none).1 =
      [.logLine "Watch mode enabled.", .watcherStart ["./app.ts"],
       .logLine "Detected 1 change. Rerunning...",
       .debugLine "File \"./app.ts\" was modify"] ∧
    spawnedCmds (Scripts [("app", watchedFileScript)] {} ["app"] sampleFs
        oneChangeBatch none).1 = [] := by
  decide

/-- C3 counterexample: configuration resolution does mutate the original
`GlobalConfig`: with `envFile` unset and a `.env` file present,
`defaultCommonArgs` writes `envFile = true` into the global config object
it was given, so the input object is changed. -/
theorem c3_global_config_is_mutated :
    (defaultCommonArgs {} {} true).2 ≠ ({} : GlobalConfig) ∧
    ((defaultCommonArgs {} {} true).2).envFile = some (.bool true) := by
  decide

/-- C3 (amended): the `ScriptDefinition` is never mutated, and the mutation
of the `GlobalConfig` is confined to exactly one case: when its `envFile` is
unset and a `.env` file exists in the working directory, `envFile` is set to
`true`; every other field, and the whole config in every other case, is left
unchanged — and no step of resolution other than this defaulting writes to
either input. -/
theorem c3_mutation_confined_to_envFile_default (s : ScriptDef)
    (g : GlobalConfig) (d : Bool) :
    (defaultCommonArgs s g d).1 = s ∧
    (defaultCommonArgs s g d).2 =
      (if g.envFile = none ∧ d = true then
        { g with envFile := some (.bool true) }
      else g) := by
  refine ⟨defaultCommonArgs_fst s g d, ?_⟩
  cases h : g.envFile <;> cases d <;> simp [defaultCommonArgs, h]

/-- C7: when the requested script name is empty or absent from the
declaration mapping, `Scripts` fails, and the failure message contains the
literal script name (vacuously so for the empty name). -/
theorem c7_unknown_or_empty_script_fails_with_name
    (config : List (String × ScriptDef)) (g : GlobalConfig) (name : String)
    (rest : List String) (fs : Fs) (batches : List (List Change))
    (st : Option Int) (h : name = "" ∨ jsGet config name = none) :
    ∃ msg p q, (Scripts config g (name :: rest) fs batches st).2 = .failed msg ∧
      msg = p ++ name ++ q := by
  by_cases he : name = ""
  · subst he
    refine ⟨"Specify a script to be executed!",
      "Specify a script to be executed!", "", ?_, by decide⟩
    simp [Scripts]
  · rcases h with h | h
    · exact absurd h he
    · refine ⟨"script \"" ++ name ++ "\" not found!", "script \"",
        "\" not found!", ?_, rfl⟩
      simp [Scripts, he, h]

/-- C7 witness: requesting the script `other`, which is not declared, fails
with a message containing `other`. -/
theorem c7_witness :
    ∃ msg p q,
      (Scripts [("echo", { run := some (.str "echo hi") })] {} ["other"]
          sampleFs [] none).2 = .failed msg ∧ msg = p ++ "other" ++ q :=
  c7_unknown_or_empty_script_fails_with_name _ _ _ _ _ _ _ (Or.inr (by decide))

/-- C8: for a file-backed script whose target file does not exist, the
orchestrator fails with a message containing the literal path (a fatal,
non-zero-exit failure) and spawns no child process. -/
theorem c8_missing_file_fails_without_spawn
    (config : List (String × ScriptDef)) (g : GlobalConfig) (name : String)
    (rest : List String) (fs : Fs) (batches : List (List Change))
    (st : Option Int) (s : ScriptDef) (f : String) (hname : ¬ name = "")
    (hlook : jsGet config name = some s) (hfile : fileTarget s = some f)
    (hex : fs.fileExists f = false) :
    (Scripts config g (name :: rest) fs batches st).2 =
      .failed ("File " ++ f ++ " not found!") ∧
    spawnedCmds (Scripts config g (name :: rest) fs batches st).1 = [] ∧
    ∃ p q, ("File " ++ f ++ " not found!") = p ++ f ++ q := by
  rw [Scripts_eq_runScript config g name rest fs batches st s hname hlook]
  rw [runScript_file_missing _ _ _ _ _ _ f hfile hex]
  exact ⟨rfl, spawnedCmds_watchLogEffects _ _, "File ", " not found!", rfl⟩

/-- C8 witness: the declared script `log` points at `./log.ts`, which the
filesystem oracle reports missing, so the run fails fatally mentioning
`./log.ts` and no child is spawned. -/
theorem c8_witness :
    (Scripts [("log", { file := some "./log.ts" })] {} ["log"]
        { sampleFs with fileExists := fun _ => false } [] none).2 =
      .failed ("File " ++ "./log.ts" ++ " not found!") ∧
    spawnedCmds (Scripts [("log", { file := some "./log.ts" })] {} ["log"]
        { sampleFs with fileExists := fun _ => false } [] none).1 = [] ∧
    ∃ p q, ("File " ++ "./log.ts" ++ " not found!") = p ++ "./log.ts" ++ q :=
  c8_missing_file_fails_without_spawn [("log", { file := some "./log.ts" })] {}
    "log" [] { sampleFs with fileExists := fun _ => false } [] none
    { file := some "./log.ts" } "./log.ts" (by decide) (by decide) (by decide)
    rfl

/-- C5: for a command-backed script, the spawned argument vector is exactly
the tokens of `run` (a scalar string split on whitespace, a sequence used
as-is), followed by the resolved script args, followed by the rest of the
invocation's arguments — and the child is spawned exactly once. -/
theorem c5_command_script_argv (config : List (String × ScriptDef))
    (g : GlobalConfig) (name : String) (rest : List String) (fs : Fs)
    (batches : List (List Change)) (st : Option Int) (s : ScriptDef)
    (r : StrOrList) (hname : ¬ name = "") (hlook : jsGet config name = some s)
    (hfile : fileTarget s = none) (hrun : runTarget s = some r) :
    spawnedCmds (Scripts config g (name :: rest) fs batches st).1 =
      [r.tokens ++ argifyArgs s.args g.args ++ rest] := by
  rw [Scripts_eq_runScript config g name rest fs batches st s hname hlook]
  rw [runScript_run _ _ _ _ _ _ r hfile hrun]
  simp [runCmdOf]

/-- C5 witness: `run: "echo hello"` with no overrides and rest arguments
`["a"]` spawns exactly `["echo", "hello", "a"]`. -/
theorem c5_witness :
    spawnedCmds (Scripts [("echo", { run := some (.str "echo hello") })] {}
        ["echo", "a"] sampleFs [] (some 0)).1 =
      [(StrOrList.str "echo hello").tokens ++ argifyArgs none none ++ ["a"]] :=
  c5_command_script_argv [("echo", { run := some (.str "echo hello") })] {}
    "echo" ["a"] sampleFs [] (some 0) { run := some (.str "echo hello") }
    (.str "echo hello") (by decide) (by decide) rfl rfl

/-- Effects produced by the watch-mode log are never a watcher start. -/
theorem noWatcherStart_watchLogEffects (s : ScriptDef) (g : GlobalConfig) :
    ∀ e ∈ watchLogEffects s g, e.isWatcherStart = false := by
  unfold watchLogEffects
  split
  · intro e he
    simp at he
    rw [he]
    rfl
  · intro e he
    simp at he

/-- Effects produced by the debug echo are never a watcher start. -/
theorem noWatcherStart_debugEffects (g : GlobalConfig) (cmd : List String)
    (env : Option Rec) :
    ∀ e ∈ debugEffects g cmd env, e.isWatcherStart = false := by
  unfold debugEffects
  split
  · intro e he
    simp at he
    rw [he]
    rfl
  · intro e he
    simp at he

/-- C9 counterexample: in one-shot mode, when the child terminates without
an exit code (signal termination, `status().code === undefined`), the
orchestrator calls `Deno.exit(undefined)`, which exits with code 0 — i.e.
success, not the failure the claim requires. -/
theorem c9_absent_exit_code_exits_zero :
    (Scripts [("e", { run := some (.str "echo hi") })] {} ["e"] sampleFs []
        none).2 = .exited 0 := by
  decide

/-- C9 (amended): in one-shot mode the orchestrator terminates with the
child's exact exit code when the child has one; when the child's exit code
is absent (signal termination) the orchestrator exits 0, treating the
absence as success, not failure. Both the command-backed and the file-backed
one-shot branches propagate this way. -/
theorem c9_exit_code_propagation (config : List (String × ScriptDef))
    (g : GlobalConfig) (name : String) (rest : List String) (fs : Fs)
    (batches : List (List Change)) (st : Option Int) (s : ScriptDef)
    (hname : ¬ name = "") (hlook : jsGet config name = some s) :
    (∀ r, fileTarget s = none → runTarget s = some r →
      (Scripts config g (name :: rest) fs batches st).2 =
        .exited (st.getD 0)) ∧
    (∀ f, fileTarget s = some f → fs.fileExists f = true →
      watchModeEnabled s g = false →
      (Scripts config g (name :: rest) fs batches st).2 =
        .exited (st.getD 0)) := by
  rw [Scripts_eq_runScript config g name rest fs batches st s hname hlook]
  constructor
  · intro r hf hr
    rw [runScript_run _ _ _ _ _ _ r hf hr]
    rfl
  · intro f hf hex hw
    have hw2 : watchModeEnabled s (defaultCommonArgs s g fs.dotEnvExists).2 =
        false := by
      rw [watchModeEnabled_defaultCommonArgs]
      exact hw
    rw [runScript_file_oneshot _ _ _ _ _ _ f hf hex hw2]
    rfl

/-- C9 witness: a child exiting with code 7 makes the orchestrator exit
with exactly 7. -/
theorem c9_witness :
    (Scripts [("e", { run := some (.str "echo hi") })] {} ["e"] sampleFs []
        (some 7)).2 = .exited ((some (7 : Int)).getD 0) :=
  (c9_exit_code_propagation [("e", { run := some (.str "echo hi") })] {} "e"
      [] sampleFs [] (some 7) { run := some (.str "echo hi") } (by decide)
      (by decide)).1 (.str "echo hi") rfl rfl

/-- A command-backed script with watch enabled, used as the concrete
watch-ignoring scenario. -/
def watchedRunScript : ScriptDef where
  run := some (.str "echo hi")
  watch := some (.bool true)

/-- C10: a command-backed script with watch enabled never starts a watcher:
the first logged line reports that watch mode is enabled, the script is then
spawned exactly once with the one-shot command vector (which ignores every
watch option), and the orchestrator exits with the child's exit code
(0 when the code is absent). -/
theorem c10_run_script_ignores_watch (config : List (String × ScriptDef))
    (g : GlobalConfig) (name : String) (rest : List String) (fs : Fs)
    (batches : List (List Change)) (st : Option Int) (s : ScriptDef)
    (r : StrOrList) (hname : ¬ name = "") (hlook : jsGet config name = some s)
    (hfile : fileTarget s = none) (hrun : runTarget s = some r)
    (hwatch : watchModeEnabled s g = true) :
    (Scripts config g (name :: rest) fs batches st).1.head? =
      some (.logLine "Watch mode enabled.") ∧
    (∀ e ∈ (Scripts config g (name :: rest) fs batches st).1,
      e.isWatcherStart = false) ∧
    spawnedCmds (Scripts config g (name :: rest) fs batches st).1 =
      [r.tokens ++ argifyArgs s.args g.args ++ rest] ∧
    (Scripts config g (name :: rest) fs batches st).2 = denoExit st := by
  rw [Scripts_eq_runScript config g name rest fs batches st s hname hlook]
  rw [runScript_run _ _ _ _ _ _ r hfile hrun]
  have hw : watchModeEnabled s (defaultCommonArgs s g fs.dotEnvExists).2 =
      true := by
    rw [watchModeEnabled_defaultCommonArgs]
    exact hwatch
  refine ⟨?_, ?_, ?_, rfl⟩
  · simp [watchLogEffects, hw]
  · intro e he
    rcases List.mem_append.mp he with he | he
    · rcases List.mem_append.mp he with he | he
      · exact noWatcherStart_watchLogEffects _ _ e he
      · exact noWatcherStart_debugEffects _ _ _ e he
    · simp at he
      rw [he]
      rfl
  · simp [runCmdOf]

/-- C10 witness: `run: "echo hi"` with `watch: true` logs the watch-mode
line first, starts no watcher, spawns once, and exits with the child's
code 3. -/
theorem c10_witness :
    (Scripts [("e", watchedRunScript)] {} ["e"] sampleFs []
        (some 3)).1.head? = some (.logLine "Watch mode enabled.") ∧
    (∀ e ∈ (Scripts [("e", watchedRunScript)] {} ["e"] sampleFs []
        (some 3)).1, e.isWatcherStart = false) ∧
    spawnedCmds (Scripts [("e", watchedRunScript)] {} ["e"] sampleFs []
        (some 3)).1 =
      [(StrOrList.str "echo hi").tokens ++
        argifyArgs watchedRunScript.args none ++ []] ∧
    (Scripts [("e", watchedRunScript)] {} ["e"] sampleFs [] (some 3)).2 =
      denoExit (some 3) :=
  c10_run_script_ignores_watch [("e", watchedRunScript)] {} "e" [] sampleFs
    [] (some 3) watchedRunScript (.str "echo hi") (by decide) (by decide)
    (by decide) (by decide) (by decide)

/-- A fully decorated file-backed script for the composition witness. -/
def decoratedFileScript : ScriptDef where
  file := some "./app.ts"
  permissions := some { allowNet := some (.bool true) }
  tsconfig := some "ts.json"
  denoArgs := some (.str "--quiet")
  args := some (.list ["x"])

/-- A global config carrying an import map and unstable features, for the
composition witness. -/
def decoratedGlobal : GlobalConfig where
  importMap := some "im.json"
  unstable := some true

/-- C6: for a file-backed script run in one-shot mode, the spawned argument
vector is, in this exact order: the interpreter run tokens `deno run`,
permission flags, tsconfig flag, extra interpreter args, import-map flag,
unstable flag, the file path, the resolved script args, then the rest of the
invocation's arguments; and every flag-emitting helper emits zero tokens
when both members of its (local, global) value pair are unset. -/
theorem c6_file_script_argv (config : List (String × ScriptDef))
    (g : GlobalConfig) (name : String) (rest : List String) (fs : Fs)
    (batches : List (List Change)) (st : Option Int) (s : ScriptDef)
    (f : String) (hname : ¬ name = "") (hlook : jsGet config name = some s)
    (hfile : fileTarget s = some f) (hex : fs.fileExists f = true)
    (hwatch : watchModeEnabled s g = false) :
    spawnedCmds (Scripts config g (name :: rest) fs batches st).1 =
      [["deno", "run"] ++ argifyPermissions s.permissions g.permissions ++
        argifyTsconfig s.tsconfig g.tsconfig ++
        argifyArgs s.denoArgs g.denoArgs ++ argifyImportMap g.importMap ++
        argifyUnstable g.unstable ++ [f] ++ argifyArgs s.args g.args ++
        rest] ∧
    argifyPermissions none none = [] ∧ argifyTsconfig none none = [] ∧
    argifyArgs none none = [] ∧ argifyImportMap none = [] ∧
    argifyUnstable none = [] := by
  have hw : watchModeEnabled s (defaultCommonArgs s g fs.dotEnvExists).2 =
      false := by
    rw [watchModeEnabled_defaultCommonArgs]
    exact hwatch
  rw [Scripts_eq_runScript config g name rest fs batches st s hname hlook]
  rw [runScript_file_oneshot _ _ _ _ _ _ f hfile hex hw]
  refine ⟨?_, rfl, rfl, rfl, rfl, rfl⟩
  simp [fileCmdOf]

/-- C6 witness: a file script with one permission, a tsconfig, deno args,
an import map and unstable enabled composes the vector in the documented
order. -/
theorem c6_witness :
    spawnedCmds (Scripts [("app", decoratedFileScript)] decoratedGlobal
        ["app", "y"] sampleFs [] (some 0)).1 =
      [["deno", "run"] ++
        argifyPermissions decoratedFileScript.permissions
          decoratedGlobal.permissions ++
        argifyTsconfig decoratedFileScript.tsconfig
          decoratedGlobal.tsconfig ++
        argifyArgs decoratedFileScript.denoArgs decoratedGlobal.denoArgs ++
        argifyImportMap decoratedGlobal.importMap ++
        argifyUnstable decoratedGlobal.unstable ++ ["./app.ts"] ++
        argifyArgs decoratedFileScript.args decoratedGlobal.args ++ ["y"]] ∧
    argifyPermissions none none = [] ∧ argifyTsconfig none none = [] ∧
    argifyArgs none none = [] ∧ argifyImportMap none = [] ∧
    argifyUnstable none = [] :=
  c6_file_script_argv [("app", decoratedFileScript)] decoratedGlobal "app"
    ["y"] sampleFs [] (some 0) decoratedFileScript "./app.ts" (by decide)
    (by decide) (by decide) rfl (by decide)

/-- C4: `buildEnv` returns `undefined` when there is no (truthy) `envFile`
and no `env` object at either level; otherwise it returns the overlay, later
entries winning on key collision, of the file-sourced environment, then the
global `env`, then the script `env`. -/
theorem c4_buildEnv_overlay (s : ScriptDef) (g : GlobalConfig)
    (L : String → Rec) :
    (envFileTruthy (resolvedEnvFile s g) = false → s.env = none →
      g.env = none → buildEnv s g L = none) ∧
    (envFileTruthy (resolvedEnvFile s g) = true ∨ s.env ≠ none ∨
        g.env ≠ none →
      buildEnv s g L =
        some (fileEnvPart s g L ++ (g.env.getD []) ++ (s.env.getD []))) := by
  constructor
  · intro hT hs hg
    simp [buildEnv, hT, hs, hg]
  · intro h
    rcases hs : s.env with _ | se <;> rcases hg : g.env with _ | ge
    · rcases h with h | h | h
      · cases hT : envFileTruthy (resolvedEnvFile s g)
        · rw [hT] at h; exact absurd h (by simp)
        · simp [buildEnv, fileEnvPart, hs, hg, hT]
      · exact absurd hs h
      · exact absurd hg h
    · cases hT : envFileTruthy (resolvedEnvFile s g) <;>
        simp [buildEnv, fileEnvPart, loadEnvFromObject, hs, hg, hT]
    · cases hT : envFileTruthy (resolvedEnvFile s g) <;>
        simp [buildEnv, fileEnvPart, loadEnvFromObject, hs, hg, hT]
    · cases hT : envFileTruthy (resolvedEnvFile s g) <;>
        simp [buildEnv, fileEnvPart, loadEnvFromObject, hs, hg, hT,
          List.append_assoc]

/-- C4 witness: with a script `env`, a global `env` and no env file, the
result is exactly the overlay of the two objects over the (empty) file
part. -/
theorem c4_witness :
    buildEnv { env := some [("A", "1")] }
        { env := some [("A", "2"), ("B", "3")] } (fun _ => []) =
      some (fileEnvPart { env := some [("A", "1")] }
          { env := some [("A", "2"), ("B", "3")] } (fun _ => []) ++
        ((some [("A", "2"), ("B", "3")] : Option Rec).getD []) ++
        ((some [("A", "1")] : Option Rec).getD [])) :=
  (c4_buildEnv_overlay { env := some [("A", "1")] }
      { env := some [("A", "2"), ("B", "3")] } (fun _ => [])).2
    (Or.inr (Or.inl (by decide)))

/-- C2: field precedence of configuration resolution. For `envFile`, `args`,
`denoArgs`, `tsconfig`, `permissions` and the watch-enable decision, the
script-level value wins when present and non-undefined, otherwise the
global-level value applies, otherwise the documented default (`envFile`
defaults to `true` exactly when a `.env` file exists in the working
directory, the flag helpers emit nothing); `env` and object-form `watch`
are instead resolved key-wise, the union of the global and script objects
with script keys winning on conflict. -/
theorem c2_field_precedence (s : ScriptDef) (g : GlobalConfig) (d : Bool)
    (L : String → Rec) :
    (∀ v, s.envFile = some v →
      resolvedEnvFile s (defaultCommonArgs s g d).2 = some v) ∧
    (s.envFile = none → g.envFile ≠ none →
      resolvedEnvFile s (defaultCommonArgs s g d).2 = g.envFile) ∧
    (s.envFile = none → g.envFile = none →
      resolvedEnvFile s (defaultCommonArgs s g d).2 =
        (if d then some (.bool true) else none)) ∧
    (∀ v, s.args = some v → argifyArgs s.args g.args = v.tokens) ∧
    (s.args = none → argifyArgs s.args g.args = toArgsStringList g.args) ∧
    (∀ v, s.denoArgs = some v →
      argifyArgs s.denoArgs g.denoArgs = v.tokens) ∧
    (s.denoArgs = none →
      argifyArgs s.denoArgs g.denoArgs = toArgsStringList g.denoArgs) ∧
    (∀ t, s.tsconfig = some t →
      argifyTsconfig s.tsconfig g.tsconfig = ["-c", t]) ∧
    (s.tsconfig = none → ∀ t, g.tsconfig = some t →
      argifyTsconfig s.tsconfig g.tsconfig = ["-c", t]) ∧
    (s.tsconfig = none → g.tsconfig = none →
      argifyTsconfig s.tsconfig g.tsconfig = []) ∧
    (∀ p, s.permissions = some p →
      argifyPermissions s.permissions g.permissions = permissionTokens p) ∧
    (s.permissions = none → ∀ p, g.permissions = some p →
      argifyPermissions s.permissions g.permissions = permissionTokens p) ∧
    (s.permissions = none → g.permissions = none →
      argifyPermissions s.permissions g.permissions = []) ∧
    (∀ w, s.watch = some w →
      watchModeEnabled s (defaultCommonArgs s g d).2 = w.truthy) ∧
    (s.watch = none → ∀ w, g.watch = some w →
      watchModeEnabled s (defaultCommonArgs s g d).2 = w.truthy) ∧
    (∀ so go, s.watch = some (.opts so) → g.watch = some (.opts go) →
      (resolvedWatchOptions s (defaultCommonArgs s g d).2).paths =
          (match so.paths with | some v => some v | none => go.paths) ∧
        (resolvedWatchOptions s (defaultCommonArgs s g d).2).matchPats =
          (match so.matchPats with
           | some v => some v
           | none => go.matchPats) ∧
        (resolvedWatchOptions s (defaultCommonArgs s g d).2).skip =
          (match so.skip with | some v => some v | none => go.skip) ∧
        (resolvedWatchOptions s (defaultCommonArgs s g d).2).extensions =
          (match so.extensions with
           | some v => some v
           | none => go.extensions) ∧
        (resolvedWatchOptions s (defaultCommonArgs s g d).2).interval =
          (match so.interval with
           | some v => some v
           | none => go.interval) ∧
        (resolvedWatchOptions s (defaultCommonArgs s g d).2).recursive =
          (match so.recursive with
           | some v => some v
           | none => go.recursive)) ∧
    (∀ se ge, s.env = some se → g.env = some ge →
      ∃ m, buildEnv s g L = some m ∧ ∀ k, jsGet m k =
        (match jsGet se k with
         | some v => some v
         | none =>
           match jsGet ge k with
           | some v => some v
           | none => jsGet (fileEnvPart s g L) k)) := by
  refine ⟨?_, ?_, ?_, ?_, ?_, ?_, ?_, ?_, ?_, ?_, ?_, ?_, ?_, ?_, ?_, ?_, ?_⟩
  · intro v hv
    simp [resolvedEnvFile, hv]
  · intro hs hg
    rcases hG : g.envFile with _ | v
    · exact absurd hG hg
    · simp [resolvedEnvFile, hs, defaultCommonArgs, hG]
  · intro hs hg
    cases d <;> simp [resolvedEnvFile, hs, defaultCommonArgs, hg]
  · intro v hv
    simp [argifyArgs, hv, toArgsStringList]
  · intro hs
    simp [argifyArgs, hs]
  · intro v hv
    simp [argifyArgs, hv, toArgsStringList]
  · intro hs
    simp [argifyArgs, hs]
  · intro t ht
    simp [argifyTsconfig, ht]
  · intro hs t ht
    simp [argifyTsconfig, hs, ht]
  · intro hs hg
    simp [argifyTsconfig, hs, hg]
  · intro p hp
    simp [argifyPermissions, hp]
  · intro hs p hp
    simp [argifyPermissions, hs, hp]
  · intro hs hg
    simp [argifyPermissions, hs, hg]
  · intro w hw
    simp [watchModeEnabled, hw]
  · intro hs w hw
    simp [watchModeEnabled, hs, defaultCommonArgs_watch, hw]
  · intro so go hso hgo
    rw [resolvedWatchOptions_defaultCommonArgs]
    simp [resolvedWatchOptions, watchObj, hso, hgo, mergeWatchOptions]
  · intro se ge hse hge
    refine ⟨(fileEnvPart s g L ++ ge) ++ se, ?_, ?_⟩
    · cases hT : envFileTruthy (resolvedEnvFile s g) <;>
        simp [buildEnv, fileEnvPart, loadEnvFromObject, hse, hge, hT]
    · intro k
      rw [jsGet_append, jsGet_append]
      cases jsGet se k <;> cases jsGet ge k <;> rfl

/-- A script definition setting every overridable field, for the precedence
witness. -/
def overridingScript : ScriptDef where
  envFile := some (.str "custom.env")
  env := some [("K", "s")]
  args := some (.list ["sa"])
  watch := some (.opts { paths := some ["sp"] })
  permissions := some { allowNet := some (.bool true) }
  tsconfig := some "ts.json"
  denoArgs := some (.list ["sd"])

/-- A global config setting every overridable field, for the precedence
witness. -/
def overriddenGlobal : GlobalConfig where
  envFile := some (.bool false)
  env := some [("K", "g"), ("G", "g")]
  args := some (.list ["ga"])
  watch := some (.opts { paths := some ["gp"], interval := some 5 })
  permissions := some { allowRead := some (.bool true) }
  tsconfig := some "gts.json"
  denoArgs := some (.list ["gd"])

/-- C2 witness: with every field set at both levels, the script value wins
for `envFile`, `args`, `tsconfig`, `permissions` and the watch paths, and
the merged `env` gives the script value on the conflicting key. -/
theorem c2_witness :
    resolvedEnvFile overridingScript
        (defaultCommonArgs overridingScript overriddenGlobal true).2 =
      some (.str "custom.env") ∧
    argifyArgs overridingScript.args overriddenGlobal.args =
      (StrOrList.list ["sa"]).tokens ∧
    argifyTsconfig overridingScript.tsconfig overriddenGlobal.tsconfig =
      ["-c", "ts.json"] ∧
    argifyPermissions overridingScript.permissions
        overriddenGlobal.permissions =
      permissionTokens { allowNet := some (.bool true) } ∧
    (resolvedWatchOptions overridingScript
        (defaultCommonArgs overridingScript overriddenGlobal true).2).paths =
      some ["sp"] ∧
    ∃ m, buildEnv overridingScript overriddenGlobal (fun _ => [("K", "f")]) =
        some m ∧ jsGet m "K" = some "s" := by
  obtain ⟨h1, _, _, h4, _, h6, _, h8, _, _, h11, _, _, _, _, h16, h17⟩ :=
    c2_field_precedence overridingScript overriddenGlobal true
      (fun _ => [("K", "f")])
  obtain ⟨hp, _⟩ := h16 { paths := some ["sp"] }
    { paths := some ["gp"], interval := some 5 } rfl rfl
  obtain ⟨m, hm, hk⟩ := h17 [("K", "s")] [("K", "g"), ("G", "g")] rfl rfl
  exact ⟨h1 _ rfl, h4 _ rfl, h8 _ rfl, h11 _ rfl, hp,
    m, hm, by rw [hk "K"]; decide⟩

end DenoScripts